import Mathlib

/-!
Verification of scripts/process_arxiv.py (arXiv paper summarizer).

The script is a linear pipeline: poll Telegram updates, filter by chat,
extract an arXiv identifier with three regular expressions tried in order,
skip identifiers recorded in a JSON ledger file, fetch the paper, generate
a summary, render markdown, write it to disk, append the ledger, and notify.

The shallow embedding below models:
  - the ledger file as an optional list of identifier strings
    (none = file absent, matching os.path.exists);
  - the three regular expressions of extract_arxiv_id as executable
    matchers over lists of characters, with Python re.search semantics
    (leftmost match; greedy repetition); the digit class is modelled as
    the ASCII digits 0-9;
  - the filesystem touched by save_summary_to_file as a record of created
    directories and an association list of written files, where a second
    write to the same path overwrites (open with mode w);
  - the external services (arXiv fetch, Gemini generation) as explicit
    fallible functions in an Effects record, exceptions as Except values;
  - the per-run effect trace (messages sent, fetch calls) as lists in the
    run state, and process_new_papers as a left fold over the updates,
    with the dedup check made against the ledger snapshot loaded once at
    the start of the run, exactly as in the Python code.
-/

namespace ArxivProc

/-! ## Character-level regular-expression model -/

/-- Boolean test that the first list is a leading segment of the second. -/
def startsWithL : List Char → List Char → Bool
  | [], _ => true
  | _ :: _, [] => false
  | p :: ps, c :: cs => p == c && startsWithL ps cs

/-- Boolean substring occurrence test: the pattern occurs somewhere in the
text.  Used to state containment properties of rendered strings. -/
def occursIn (pat : List Char) : List Char → Bool
  | [] => startsWithL pat []
  | c :: cs => startsWithL pat (c :: cs) || occursIn pat cs

/-- Maximal leading run of ASCII digits, together with the rest of the
input.  This is the greedy matching of a digit-plus atom. -/
def takeDigits : List Char → List Char × List Char
  | [] => ([], [])
  | c :: cs =>
    if c.isDigit then
      let p := takeDigits cs
      (c :: p.1, p.2)
    else ([], c :: cs)

/-- Match an exact run of n digits at the front, returning the digits and
the rest. -/
def matchDigitsN : Nat → List Char → Option (List Char × List Char)
  | 0, s => some ([], s)
  | _ + 1, [] => none
  | n + 1, c :: cs =>
    if c.isDigit then (matchDigitsN n cs).map (fun p => (c :: p.1, p.2)) else none

/-- Match a literal character sequence at the front, returning the rest. -/
def matchLit : List Char → List Char → Option (List Char)
  | [], s => some s
  | _ :: _, [] => none
  | p :: ps, c :: cs => if p = c then matchLit ps cs else none

/-- Greedy match of the captured group (backslash-d+ dot backslash-d+) at
the current position: a nonempty digit run, a dot, a nonempty digit run.
Returns the captured text. -/
def matchNumDotNum (s : List Char) : Option (List Char) :=
  let p := takeDigits s
  if p.1 = [] then none
  else
    match p.2 with
    | '.' :: r2 =>
      let q := takeDigits r2
      if q.1 = [] then none else some (p.1 ++ '.' :: q.1)
    | _ => none

/-- Pattern 1 of extract_arxiv_id at one position: the literal
arxiv.org/abs/ followed by the digits-dot-digits group. -/
def matchAbsAt (s : List Char) : Option (List Char) :=
  match matchLit "arxiv.org/abs/".toList s with
  | some rest => matchNumDotNum rest
  | none => none

/-- Pattern 2 of extract_arxiv_id at one position: the literal
arxiv.org/pdf/ followed by the digits-dot-digits group. -/
def matchPdfAt (s : List Char) : Option (List Char) :=
  match matchLit "arxiv.org/pdf/".toList s with
  | some rest => matchNumDotNum rest
  | none => none

/-- Pattern 3 of extract_arxiv_id at one position: exactly four digits, a
dot, then five digits if available else four (greedy counted repetition). -/
def matchBareAt (s : List Char) : Option (List Char) :=
  match matchDigitsN 4 s with
  | none => none
  | some (d1, r1) =>
    match r1 with
    | '.' :: r2 =>
      match matchDigitsN 5 r2 with
      | some (d2, _) => some (d1 ++ '.' :: d2)
      | none =>
        match matchDigitsN 4 r2 with
        | some (d2, _) => some (d1 ++ '.' :: d2)
        | none => none
    | _ => none

/-- Python re.search: try the matcher at each position from the left,
returning the first success (the leftmost match). -/
def searchPat (m : List Char → Option (List Char)) : List Char → Option (List Char)
  | [] => m []
  | c :: cs =>
    match m (c :: cs) with
    | some r => some r
    | none => searchPat m cs

/-- Embedding of extract_arxiv_id: the three patterns are tried in order
(abs URL, pdf URL, bare identifier); the first one that matches anywhere
in the text yields its captured group; otherwise the result is none. -/
def extract_arxiv_id (text : String) : Option String :=
  match searchPat matchAbsAt text.toList with
  | some g => some (String.mk g)
  | none =>
    match searchPat matchPdfAt text.toList with
    | some g => some (String.mk g)
    | none =>
      match searchPat matchBareAt text.toList with
      | some g => some (String.mk g)
      | none => none

/-! ## Processed-ID ledger -/

/-- Embedding of load_processed_papers: the ledger file state is an
optional list of identifier strings; a missing file is read as the empty
list. -/
def load_processed_papers : Option (List String) → List String
  | some l => l
  | none => []

/-- Embedding of save_processed_paper: reload the ledger; when the
identifier is already present nothing is written (the file state is
unchanged); otherwise the identifier is appended and the whole list is
rewritten. -/
def save_processed_paper (paper_id : String) (ledger : Option (List String)) :
    Option (List String) :=
  let processed := load_processed_papers ledger
  if paper_id ∈ processed then ledger
  else some (processed ++ [paper_id])

/-! ## Paper record, prompt and markdown rendering -/

/-- The fields of the fetched arXiv paper record that the script reads:
title, author names, the strftime-formatted publication date, the short
identifier, and the abstract (paper.summary). -/
structure Paper where
  title : String
  authors : List String
  published_fmt : String
  short_id : String
  summary : String
deriving DecidableEq

/-- The fixed five-section prompt built by generate_summary, verbatim from
the f-string in the source. -/
def summary_prompt (paper : Paper) : String :=
  "Generate a comprehensive academic paper summary with the following structure:\n\nTitle: "
    ++ paper.title
    ++ "\nAuthors: " ++ String.intercalate ", " paper.authors
    ++ "\nPublished: " ++ paper.published_fmt
    ++ "\narXiv ID: " ++ paper.short_id
    ++ "\n\nAbstract:\n" ++ paper.summary
    ++ "\n\nCreate a detailed summary covering:\n1. Core Contribution - Main innovation and key ideas\n2. Technical Approach - Methodology, architecture, algorithms\n3. Key Results & Ablations - Experimental results and ablation studies\n4. Important Citations - Related work and key references\n5. Conclusion & Impact - Significance and future directions\n\nMake it comprehensive enough that someone doesn\x27t need to read the full paper to understand its main ideas."

/-- Embedding of generate_summary: build the prompt and submit it to the
external generative service, modelled as a fallible function. -/
def generate_summary (genFn : String → Except String String) (paper : Paper) :
    Except String String :=
  genFn (summary_prompt paper)

/-- Embedding of create_markdown_summary, verbatim from the f-string: the
front matter (title, authors, id, date, link), the generated text, and the
trailing generation timestamp (datetime.now made an explicit argument). -/
def create_markdown_summary (paper : Paper) (summary_text : String) (today : String) :
    String :=
  "# " ++ paper.title
    ++ "\n\n**Authors:** " ++ String.intercalate ", " paper.authors
    ++ "\n\n**arXiv ID:** " ++ paper.short_id
    ++ "\n\n**Published:** " ++ paper.published_fmt
    ++ "\n\n**Link:** https://arxiv.org/abs/" ++ paper.short_id
    ++ "\n\n---\n\n" ++ summary_text
    ++ "\n\n---\n\n*Summary generated on: " ++ today ++ "*\n"

/-! ## Filesystem model for save_summary_to_file -/

/-- First value stored under the key in the association list of files. -/
def lookupFile (k : String) : List (String × String) → Option String
  | [] => none
  | (k', v) :: rest => if k' = k then some v else lookupFile k rest

/-- Write a file: replace the existing entry for the path, or append a new
entry.  Open with mode w truncates, so the old contents are lost. -/
def writeFile (k v : String) : List (String × String) → List (String × String)
  | [] => [(k, v)]
  | (k', v') :: rest => if k' = k then (k, v) :: rest else (k', v') :: writeFile k v rest

/-- The directories created and files written by the script. -/
structure FS where
  dirs : List String
  files : List (String × String)
deriving DecidableEq

/-- Path.mkdir with exist_ok: create the directory unless it already
exists. -/
def mkdir_exist_ok (d : String) (fs : FS) : FS :=
  if d ∈ fs.dirs then fs else { fs with dirs := fs.dirs ++ [d] }

/-- Embedding of save_summary_to_file: create the directory named after
the identifier if absent, then write the content to id/id.md, overwriting
any previous file; the written path is returned. -/
def save_summary_to_file (paper_id content : String) (fs : FS) : FS × String :=
  let fs1 := mkdir_exist_ok paper_id fs
  let file_path := paper_id ++ "/" ++ paper_id ++ ".md"
  ({ fs1 with files := writeFile file_path content fs1.files }, file_path)

/-! ## Telegram messages and pipeline state -/

/-- The chat object of a Telegram message (the script reads only the id). -/
structure Chat where
  id : Int
deriving DecidableEq

/-- A Telegram message: chat and optional text (message.get of text
defaults to the empty string when absent). -/
structure Message where
  chat : Chat
  text : Option String
deriving DecidableEq

/-- A polled update: it may or may not carry a message. -/
structure Update where
  message : Option Message
deriving DecidableEq

/-- The status text sent before fetching, verbatim from the source. -/
def processing_msg (pid : String) : String :=
  "📥 Processing paper...\narXiv ID: " ++ pid ++ "\n\nFetching paper details..."

/-- The failure notification text, verbatim from the source: it embeds the
identifier and the error reason. -/
def error_msg (pid e : String) : String :=
  "❌ Error processing paper " ++ pid ++ "\nReason: " ++ e

/-- The GitHub link included in the success notification. -/
def github_url (pid : String) : String :=
  "https://github.com/meet-minimalist/Paper-Summaries/blob/main/"
    ++ pid ++ "/" ++ pid ++ ".md"

/-- The success notification text, verbatim from the source. -/
def success_msg (title pid : String) : String :=
  "✅ Summary generated successfully!\n\n📄 Paper: " ++ title
    ++ "\n🔗 Summary saved at: " ++ github_url pid

/-- The external effects of one run: the arXiv fetch, the generation
service (both fallible, exceptions as Except), and the current date used
in the rendered markdown. -/
structure Effects where
  fetchFn : String → Except String Paper
  genFn : String → Except String String
  today : String

/-- The state threaded through a run: the ledger file, the summary
filesystem, the log of sent Telegram messages (chat id rendered as a
string, text), and the log of arXiv fetch calls. -/
structure RunState where
  ledger_file : Option (List String)
  fs : FS
  sent : List (String × String)
  fetch_calls : List String
deriving DecidableEq

/-- The environment configuration the script reads at module level; each
os.getenv may return None. -/
structure Config where
  telegram_bot_token : Option String
  telegram_chat_id : Option String
  gemini_api_key : Option String

/-! ## The per-update pipeline -/

/-- One iteration of the loop in process_new_papers.  The dedup check uses
the snapshot of the ledger loaded once at the start of the run (the
processed_papers local of the Python code), while save_processed_paper
reloads the file.  The chat filter compares str of the chat id with the
TELEGRAM_CHAT_ID environment value, which may be absent; comparing a
string with None in Python is always unequal, so an absent value filters
every message out.  A failure of the fetch or of the generation lands in
the except branch: a failure notification is sent and neither the
filesystem nor the ledger is touched. -/
def process_update (cfgChat : Option String) (eff : Effects) (snap : List String)
    (st : RunState) (u : Update) : RunState :=
  match u.message with
  | none => st
  | some msg =>
    let chat_id := toString msg.chat.id
    if some chat_id ≠ cfgChat then st
    else
      let text := msg.text.getD ""
      match extract_arxiv_id text with
      | none => st
      | some pid =>
        if pid ∈ snap then st
        else
          let st1 := { st with sent := st.sent ++ [(chat_id, processing_msg pid)] }
          let st2 := { st1 with fetch_calls := st1.fetch_calls ++ [pid] }
          match eff.fetchFn pid with
          | Except.error e =>
            { st2 with sent := st2.sent ++ [(chat_id, error_msg pid e)] }
          | Except.ok paper =>
            match generate_summary eff.genFn paper with
            | Except.error e =>
              { st2 with sent := st2.sent ++ [(chat_id, error_msg pid e)] }
            | Except.ok summary_text =>
              let md := create_markdown_summary paper summary_text eff.today
              let fs2 := (save_summary_to_file pid md st2.fs).1
              let st3 := { st2 with fs := fs2 }
              let st4 := { st3 with
                ledger_file := save_processed_paper pid st3.ledger_file }
              { st4 with
                sent := st4.sent ++ [(chat_id, success_msg paper.title pid)] }

/-- Embedding of process_new_papers: load the ledger snapshot once, then
process each update in order. -/
def process_new_papers (cfgChat : Option String) (eff : Effects)
    (updates : List Update) (init : RunState) : RunState :=
  let processed := load_processed_papers init.ledger_file
  updates.foldl (process_update cfgChat eff processed) init

/-- The whole program as invoked from the main guard.  The module-level
code reads the three environment values and performs no validation on
them, so no configuration error path exists: the result is always ok.
The Except layer makes the absence of any startup failure expressible. -/
def run_program (cfg : Config) (eff : Effects) (updates : List Update)
    (init : RunState) : Except String RunState :=
  Except.ok (process_new_papers cfg.telegram_chat_id eff updates init)

/-- Boolean version of the skip conditions of one loop iteration: no
message, chat mismatch (or absent configured chat), no extracted
identifier, or identifier already in the ledger snapshot. -/
def skipped (cfgChat : Option String) (snap : List String) (u : Update) : Bool :=
  match u.message with
  | none => true
  | some m =>
    if some (toString m.chat.id) ≠ cfgChat then true
    else
      match extract_arxiv_id (m.text.getD "") with
      | none => true
      | some pid => decide (pid ∈ snap)

/-! ## Concrete fixtures used by witnesses and counterexamples -/

/-- A concrete paper record. -/
def paper0 : Paper :=
  { title := "T", authors := ["A", "B"], published_fmt := "January 01, 2023",
    short_id := "2301.01234", summary := "An abstract." }

/-- Effects whose external services always fail. -/
def effErr : Effects :=
  { fetchFn := fun _ => Except.error "service down",
    genFn := fun _ => Except.error "service down",
    today := "2025-01-01" }

/-- An initial run state whose ledger already records the identifier
2301.01234 and whose fetch log already mentions it. -/
def init0 : RunState :=
  { ledger_file := some ["2301.01234"], fs := { dirs := [], files := [] },
    sent := [], fetch_calls := ["2301.01234"] }

/-- An empty initial run state with no ledger file. -/
def init1 : RunState :=
  { ledger_file := none, fs := { dirs := [], files := [] },
    sent := [], fetch_calls := [] }

/-- Updates that are all skipped: no message, an already-recorded
identifier from the configured chat, and a message from another chat. -/
def updates0 : List Update :=
  [ { message := none },
    { message := some { chat := { id := 1 },
                        text := some "https://arxiv.org/abs/2301.01234" } },
    { message := some { chat := { id := 2 },
                        text := some "https://arxiv.org/abs/2402.99999" } } ]

/-- A single update carrying a valid arXiv link. -/
def updates1 : List Update :=
  [ { message := some { chat := { id := 1 },
                        text := some "https://arxiv.org/abs/2301.01234" } } ]

/-- A concrete message from chat 7 carrying a valid arXiv link. -/
def msg0 : Message :=
  { chat := { id := 7 }, text := some "https://arxiv.org/abs/2301.01234" }

/-! ## Helper lemmas -/

theorem toList_append (s t : String) : (s ++ t).toList = s.toList ++ t.toList :=
  String.data_append s t

theorem startsWithL_self_append (p b : List Char) : startsWithL p (p ++ b) = true := by
  induction p with
  | nil => rfl
  | cons c cs ih => simp [startsWithL, ih]

theorem startsWithL_refl (p : List Char) : startsWithL p p = true := by
  have h := startsWithL_self_append p []
  simpa using h

theorem occursIn_of_startsWithL {p s : List Char} (h : startsWithL p s = true) :
    occursIn p s = true := by
  cases s with
  | nil => simpa [occursIn] using h
  | cons c cs => simp [occursIn, h]

theorem occursIn_append_right {p b : List Char} (a : List Char)
    (h : occursIn p b = true) : occursIn p (a ++ b) = true := by
  induction a with
  | nil => simpa using h
  | cons c cs ih => simp [occursIn, ih]

theorem occursIn_self_append (p b : List Char) : occursIn p (p ++ b) = true :=
  occursIn_of_startsWithL (startsWithL_self_append p b)

theorem startsWithL_append (p s b : List Char) (h : startsWithL p s = true) :
    startsWithL p (s ++ b) = true := by
  induction p generalizing s with
  | nil => rfl
  | cons c cs ih =>
    cases s with
    | nil => simp [startsWithL] at h
    | cons d ds =>
      simp only [startsWithL, Bool.and_eq_true, beq_iff_eq] at h
      simp only [List.cons_append, startsWithL, Bool.and_eq_true, beq_iff_eq]
      exact ⟨h.1, ih ds h.2⟩

theorem occursIn_nil_pat (l : List Char) : occursIn [] l = true := by
  induction l with
  | nil => rfl
  | cons c cs ih => simp [occursIn, startsWithL]

theorem occursIn_append_left (b : List Char) {p s : List Char}
    (h : occursIn p s = true) : occursIn p (s ++ b) = true := by
  induction s with
  | nil =>
    have hp : p = [] := by
      cases p with
      | nil => rfl
      | cons c cs => simp [occursIn, startsWithL] at h
    subst hp
    exact occursIn_nil_pat b
  | cons c cs ih =>
    simp only [occursIn, Bool.or_eq_true] at h
    rcases h with h | h
    · simp only [List.cons_append, occursIn, Bool.or_eq_true]
      exact Or.inl (startsWithL_append p (c :: cs) b h)
    · simp only [List.cons_append, occursIn, Bool.or_eq_true]
      exact Or.inr (ih h)

theorem occursIn_append_self (p a : List Char) : occursIn p (a ++ p) = true := by
  apply occursIn_append_right
  exact occursIn_of_startsWithL (startsWithL_refl p)

theorem matchDigitsN_spec : ∀ (n : Nat) (s d r : List Char),
    matchDigitsN n s = some (d, r) →
    d.length = n ∧ (∀ c ∈ d, c.isDigit = true) ∧ s = d ++ r := by
  intro n
  induction n with
  | zero =>
    intro s d r h
    simp [matchDigitsN] at h
    obtain ⟨rfl, rfl⟩ := h
    simp
  | succ n ih =>
    intro s d r h
    cases s with
    | nil => simp [matchDigitsN] at h
    | cons c cs =>
      rw [matchDigitsN] at h
      split_ifs at h with hc
      · rw [Option.map_eq_some'] at h
        obtain ⟨⟨d', r'⟩, hm, heq⟩ := h
        obtain ⟨hd, hr⟩ := Prod.mk.injEq .. ▸ heq
        obtain ⟨hlen, hdig, hsplit⟩ := ih cs d' r' hm
        subst hd; subst hr
        refine ⟨by simp [hlen], ?_, by simp [hsplit]⟩
        intro c' hc'
        rcases List.mem_cons.mp hc' with h1 | h1
        · subst h1; exact hc
        · exact hdig c' h1

theorem takeDigits_spec : ∀ s : List Char,
    (takeDigits s).1 ++ (takeDigits s).2 = s ∧
    ∀ c ∈ (takeDigits s).1, c.isDigit = true := by
  intro s
  induction s with
  | nil => simp [takeDigits]
  | cons c cs ih =>
    by_cases hc : c.isDigit
    · simp only [takeDigits, hc, if_pos]
      refine ⟨by simp [ih.1], ?_⟩
      intro c' hc'
      rcases List.mem_cons.mp hc' with h1 | h1
      · subst h1; exact hc
      · exact ih.2 c' h1
    · simp [takeDigits, hc]

theorem matchNumDotNum_shape (s g : List Char) (h : matchNumDotNum s = some g) :
    ∃ d1 d2, g = d1 ++ '.' :: d2 ∧ d1 ≠ [] ∧ d2 ≠ [] ∧
      (∀ c ∈ d1, c.isDigit = true) ∧ (∀ c ∈ d2, c.isDigit = true) := by
  simp only [matchNumDotNum] at h
  split_ifs at h with h1
  split at h
  · rename_i r2 heq
    split_ifs at h with h2
    have hg := Option.some.inj h
    exact ⟨(takeDigits s).1, (takeDigits r2).1, hg.symm, h1, h2,
      (takeDigits_spec s).2, (takeDigits_spec r2).2⟩
  · exact absurd h (by simp)

theorem matchBareAt_shape (s g : List Char) (h : matchBareAt s = some g) :
    ∃ d1 d2, g = d1 ++ '.' :: d2 ∧ d1.length = 4 ∧
      (d2.length = 4 ∨ d2.length = 5) ∧
      (∀ c ∈ d1, c.isDigit = true) ∧ (∀ c ∈ d2, c.isDigit = true) := by
  unfold matchBareAt at h
  split at h
  · exact absurd h (by simp)
  · rename_i d1 r1 h4
    obtain ⟨hlen1, hdig1, _⟩ := matchDigitsN_spec 4 s d1 r1 h4
    split at h
    · rename_i r2 heq
      split at h
      · rename_i d2 r5 h5
        obtain ⟨hlen2, hdig2, _⟩ := matchDigitsN_spec 5 r2 d2 r5 h5
        exact ⟨d1, d2, (Option.some.inj h).symm, hlen1, Or.inr hlen2, hdig1, hdig2⟩
      · split at h
        · rename_i hnone5 d2 r4 hm4
          obtain ⟨hlen2, hdig2, _⟩ := matchDigitsN_spec 4 _ d2 r4 hm4
          exact ⟨d1, d2, (Option.some.inj h).symm, hlen1, Or.inl hlen2, hdig1, hdig2⟩
        · exact absurd h (by simp)
    · exact absurd h (by simp)

/-! ## Claim theorems -/

/-- Claim C7: when the ledger file does not exist, load_processed_papers
returns the empty ledger rather than failing. -/
theorem load_missing_file_is_empty_ledger : load_processed_papers none = [] := rfl

/-- Claim C2: recording an identifier in the ledger is idempotent.  If the
identifier is already present the file is left unchanged; if it is absent
exactly the one new entry is appended; a repeated save of the same
identifier after the first changes nothing. -/
theorem save_processed_paper_idempotent (pid : String) (ledger : Option (List String)) :
    (pid ∈ load_processed_papers ledger → save_processed_paper pid ledger = ledger) ∧
    (pid ∉ load_processed_papers ledger →
      save_processed_paper pid ledger = some (load_processed_papers ledger ++ [pid])) ∧
    save_processed_paper pid (save_processed_paper pid ledger) =
      save_processed_paper pid ledger := by
  refine ⟨fun h => by simp [save_processed_paper, h], fun h => by simp [save_processed_paper, h], ?_⟩
  by_cases h : pid ∈ load_processed_papers ledger
  · simp [save_processed_paper, h]
  · have h1 : save_processed_paper pid ledger =
        some (load_processed_papers ledger ++ [pid]) := by
      simp [save_processed_paper, h]
    rw [h1]
    simp [save_processed_paper, load_processed_papers]

/-- Witness for claim C2 at concrete inputs. -/
theorem save_processed_paper_idempotent_witness :
    save_processed_paper "a" (some ["a"]) = some ["a"] ∧
    save_processed_paper "b" (some ["a"]) = some (["a"] ++ ["b"]) :=
  ⟨(save_processed_paper_idempotent "a" (some ["a"])).1 (by decide),
   (save_processed_paper_idempotent "b" (some ["a"])).2.1 (by decide)⟩

/-- Claim C3: extract_arxiv_id applies its patterns in a fixed order (abs
URL, then pdf URL, then bare identifier) and returns the captured group of
the first pattern that matches anywhere in the text, or none when no
pattern matches; extracting from the example abs URL yields 2301.01234. -/
theorem extract_arxiv_id_pattern_order :
    (∀ t g, searchPat matchAbsAt t.toList = some g →
      extract_arxiv_id t = some (String.mk g)) ∧
    (∀ t g, searchPat matchAbsAt t.toList = none →
      searchPat matchPdfAt t.toList = some g →
      extract_arxiv_id t = some (String.mk g)) ∧
    (∀ t g, searchPat matchAbsAt t.toList = none →
      searchPat matchPdfAt t.toList = none →
      searchPat matchBareAt t.toList = some g →
      extract_arxiv_id t = some (String.mk g)) ∧
    (∀ t, searchPat matchAbsAt t.toList = none →
      searchPat matchPdfAt t.toList = none →
      searchPat matchBareAt t.toList = none →
      extract_arxiv_id t = none) ∧
    extract_arxiv_id "https://arxiv.org/abs/2301.01234" = some "2301.01234" := by
  refine ⟨?_, ?_, ?_, ?_, by decide⟩
  · intro t g h
    simp only [String.toList] at h
    simp [extract_arxiv_id, String.toList, h]
  · intro t g h1 h2
    simp only [String.toList] at h1 h2
    simp [extract_arxiv_id, String.toList, h1, h2]
  · intro t g h1 h2 h3
    simp only [String.toList] at h1 h2 h3
    simp [extract_arxiv_id, String.toList, h1, h2, h3]
  · intro t h1 h2 h3
    simp only [String.toList] at h1 h2 h3
    simp [extract_arxiv_id, String.toList, h1, h2, h3]

/-- Witness for claim C3 at a concrete input exercising the second
pattern after the first fails. -/
theorem extract_arxiv_id_pattern_order_witness :
    extract_arxiv_id "x arxiv.org/pdf/2401.12345" = some (String.mk "2401.12345".toList) :=
  extract_arxiv_id_pattern_order.2.1 "x arxiv.org/pdf/2401.12345"
    "2401.12345".toList (by decide) (by decide)

/-- Claim C10: the two URL patterns capture any digits-dot-digits group,
so extract_arxiv_id can return strings outside the YYMM.NNNNN identifier
format (the abs URL with 1.2 yields 1.2, which the bare pattern rejects);
only the bare pattern enforces exactly four digits, a dot, and four or
five digits. -/
theorem url_patterns_looser_than_bare :
    (∀ s g, matchBareAt s = some g →
      ∃ d1 d2, g = d1 ++ '.' :: d2 ∧ d1.length = 4 ∧
        (d2.length = 4 ∨ d2.length = 5) ∧
        (∀ c ∈ d1, c.isDigit = true) ∧ (∀ c ∈ d2, c.isDigit = true)) ∧
    (∀ s g, matchNumDotNum s = some g →
      ∃ d1 d2, g = d1 ++ '.' :: d2 ∧ d1 ≠ [] ∧ d2 ≠ [] ∧
        (∀ c ∈ d1, c.isDigit = true) ∧ (∀ c ∈ d2, c.isDigit = true)) ∧
    extract_arxiv_id "arxiv.org/abs/1.2" = some "1.2" ∧
    searchPat matchBareAt "1.2".toList = none :=
  ⟨matchBareAt_shape, matchNumDotNum_shape, by decide, by decide⟩

/-- Witness for claim C10 at concrete inputs: the bare pattern accepts
2301.01234 with the enforced shape, and the digits-dot-digits group
matcher accepts 1.2. -/
theorem url_patterns_looser_than_bare_witness :
    (∃ d1 d2, "2301.01234".toList = d1 ++ '.' :: d2 ∧ d1.length = 4 ∧
      (d2.length = 4 ∨ d2.length = 5) ∧
      (∀ c ∈ d1, c.isDigit = true) ∧ (∀ c ∈ d2, c.isDigit = true)) ∧
    (∃ d1 d2, "1.2".toList = d1 ++ '.' :: d2 ∧ d1 ≠ [] ∧ d2 ≠ [] ∧
      (∀ c ∈ d1, c.isDigit = true) ∧ (∀ c ∈ d2, c.isDigit = true)) :=
  ⟨url_patterns_looser_than_bare.1 "2301.01234".toList "2301.01234".toList (by decide),
   url_patterns_looser_than_bare.2.1 "1.2".toList "1.2".toList (by decide)⟩

theorem lookupFile_writeFile_same (k v : String) (l : List (String × String)) :
    lookupFile k (writeFile k v l) = some v := by
  induction l with
  | nil => simp [writeFile, lookupFile]
  | cons kv rest ih =>
    obtain ⟨k', v'⟩ := kv
    by_cases h : k' = k
    · simp [writeFile, h, lookupFile]
    · simp [writeFile, h, lookupFile, ih]

theorem lookupFile_writeFile_other (k v p : String) (l : List (String × String))
    (hp : p ≠ k) : lookupFile p (writeFile k v l) = lookupFile p l := by
  have hkp : ¬k = p := fun h => hp h.symm
  induction l with
  | nil => simp [writeFile, lookupFile, hkp]
  | cons kv rest ih =>
    obtain ⟨k', v'⟩ := kv
    by_cases h : k' = k
    · subst h
      simp [writeFile, lookupFile, hkp]
    · simp [writeFile, h, lookupFile, ih]

theorem mkdir_exist_ok_files (d : String) (fs : FS) :
    (mkdir_exist_ok d fs).files = fs.files := by
  unfold mkdir_exist_ok
  split_ifs <;> rfl

theorem mkdir_exist_ok_mem (d : String) (fs : FS) : d ∈ (mkdir_exist_ok d fs).dirs := by
  unfold mkdir_exist_ok
  split_ifs with h
  · exact h
  · simp

/-- Claim C8: save_summary_to_file writes the content under the path
id/id.md, creating the directory named after the identifier when absent,
and a later write to the same identifier overwrites the earlier one (last
write wins); files at other paths are untouched. -/
theorem save_summary_to_file_spec (pid content content2 : String) (fs : FS) :
    (save_summary_to_file pid content fs).2 = pid ++ "/" ++ pid ++ ".md" ∧
    pid ∈ (save_summary_to_file pid content fs).1.dirs ∧
    lookupFile (pid ++ "/" ++ pid ++ ".md")
      (save_summary_to_file pid content fs).1.files = some content ∧
    (∀ p, p ≠ pid ++ "/" ++ pid ++ ".md" →
      lookupFile p (save_summary_to_file pid content fs).1.files =
        lookupFile p fs.files) ∧
    lookupFile (pid ++ "/" ++ pid ++ ".md")
      ((save_summary_to_file pid content2
        (save_summary_to_file pid content fs).1).1.files) = some content2 := by
  refine ⟨rfl, mkdir_exist_ok_mem pid fs, ?_, ?_, ?_⟩
  · simp [save_summary_to_file, lookupFile_writeFile_same]
  · intro p hp
    simp [save_summary_to_file, lookupFile_writeFile_other _ _ _ _ hp,
      mkdir_exist_ok_files]
  · simp [save_summary_to_file, lookupFile_writeFile_same]

/-- Witness for claim C8 at concrete inputs, including the frame condition
at a distinct path. -/
theorem save_summary_to_file_spec_witness :
    (save_summary_to_file "2301.01234" "body" { dirs := [], files := [("other", "x")] }).2 =
      "2301.01234" ++ "/" ++ "2301.01234" ++ ".md" ∧
    lookupFile "other"
      (save_summary_to_file "2301.01234" "body"
        { dirs := [], files := [("other", "x")] }).1.files =
      lookupFile "other" [("other", "x")] := by
  have h := save_summary_to_file_spec "2301.01234" "body" "b2"
    { dirs := [], files := [("other", "x")] }
  exact ⟨h.1, h.2.2.2.1 "other" (by decide)⟩

/-- Claim C4 counterexample: generation succeeding with text that lacks
the section headers yields a rendered document without them; the renderer
itself never inserts the headers, so the claim fails as stated. -/
theorem rendered_headers_counterexample :
    occursIn "Core Contribution".toList
      (create_markdown_summary paper0 "" "2025-01-01").toList = false := by decide

set_option maxRecDepth 8000 in
/-- Claim C4 (amended): the rendered markdown contains the generated
summary text verbatim, hence it contains any of the five expected section
headers whenever the generated text contains them; and the prompt
submitted to the generation service requests all five sections by name.
The renderer itself does not insert the headers. -/
theorem prompt_names_sections_and_render_verbatim :
    (∀ (paper : Paper) (st today : String),
      occursIn st.toList (create_markdown_summary paper st today).toList = true) ∧
    (∀ (paper : Paper) (st today : String) (pat : List Char),
      occursIn pat st.toList = true →
      occursIn pat (create_markdown_summary paper st today).toList = true) ∧
    (∀ paper : Paper,
      occursIn "Core Contribution".toList (summary_prompt paper).toList = true ∧
      occursIn "Technical Approach".toList (summary_prompt paper).toList = true ∧
      occursIn "Key Results & Ablations".toList (summary_prompt paper).toList = true ∧
      occursIn "Important Citations".toList (summary_prompt paper).toList = true ∧
      occursIn "Conclusion & Impact".toList (summary_prompt paper).toList = true) := by
  refine ⟨?_, ?_, ?_⟩
  · intro paper st today
    simp only [create_markdown_summary, toList_append, List.append_assoc]
    repeat (first | exact occursIn_self_append _ _ | apply occursIn_append_right)
  · intro paper st today pat h
    simp only [create_markdown_summary, toList_append, List.append_assoc]
    repeat (first | exact occursIn_append_left _ h | apply occursIn_append_right)
  · intro paper
    refine ⟨?_, ?_, ?_, ?_, ?_⟩ <;>
      (simp only [summary_prompt, toList_append, List.append_assoc]
       repeat apply occursIn_append_right
       decide)

/-- Witness for claim C4 (amended) at a concrete input: generated text
containing the first header renders to a document containing it. -/
theorem prompt_names_sections_and_render_verbatim_witness :
    occursIn "Core Contribution".toList
      (create_markdown_summary paper0 "1. Core Contribution - intro"
        "2025-01-01").toList = true :=
  prompt_names_sections_and_render_verbatim.2.1 paper0 "1. Core Contribution - intro"
    "2025-01-01" "Core Contribution".toList (by decide)

/-- Claim C5: evaluation at the failing input.  With every environment
value absent the module performs no validation; the run returns normally
(ok) as a silent no-op even though a pending update carries a perfectly
extractable arXiv identifier, instead of failing fast at startup. -/
theorem absent_config_run_returns_ok :
    run_program { telegram_bot_token := none, telegram_chat_id := none,
                  gemini_api_key := none } effErr updates1 init1 = Except.ok init1 ∧
    extract_arxiv_id "https://arxiv.org/abs/2301.01234" = some "2301.01234" ∧
    init1.sent = [] ∧ init1.fetch_calls = [] :=
  ⟨rfl, by decide, rfl, rfl⟩

theorem occursIn_refl (p : List Char) : occursIn p p = true :=
  occursIn_of_startsWithL (startsWithL_refl p)

theorem error_msg_contains_reason (pid e : String) :
    occursIn e.toList (error_msg pid e).toList = true := by
  simp only [error_msg, toList_append, List.append_assoc]
  repeat apply occursIn_append_right
  exact occursIn_refl _

/-- Claim C9: an update without a message field, and a message whose text
field is absent (read as empty text), are skipped: the state is returned
unchanged, so no external call, no notification and no file write happen,
and the loop moves on to the next update. -/
theorem missing_fields_are_skipped
    (cfgChat : Option String) (eff : Effects) (snap : List String) (st : RunState) :
    (∀ u : Update, u.message = none → process_update cfgChat eff snap st u = st) ∧
    (∀ m : Message, m.text = none →
      process_update cfgChat eff snap st { message := some m } = st) := by
  constructor
  · intro u hu
    obtain ⟨msg⟩ := u
    cases hu
    rfl
  · intro m hm
    have hx : extract_arxiv_id "" = none := by decide
    unfold process_update
    simp only [hm, Option.getD_none, hx]
    split_ifs <;> rfl

/-- Witness for claim C9 at concrete updates. -/
theorem missing_fields_are_skipped_witness :
    process_update (some "1") effErr [] init1 { message := none } = init1 ∧
    process_update (some "1") effErr [] init1
      { message := some { chat := { id := 5 }, text := none } } = init1 :=
  ⟨(missing_fields_are_skipped (some "1") effErr [] init1).1 { message := none } rfl,
   (missing_fields_are_skipped (some "1") effErr [] init1).2
     { chat := { id := 5 }, text := none } rfl⟩

/-- Claim C1: when processing fails after the dedup check (the fetch
raises, or the generation raises), the iteration sends a failure
notification to the originating chat whose text contains the error
reason, and leaves the ledger file (and the summary filesystem)
unchanged, so the identifier is not recorded. -/
theorem failure_notifies_and_leaves_ledger
    (cfgChat : Option String) (eff : Effects) (snap : List String) (st : RunState)
    (m : Message) (pid e : String)
    (hc : some (toString m.chat.id) = cfgChat)
    (hp : extract_arxiv_id (m.text.getD "") = some pid)
    (hd : pid ∉ snap) :
    (eff.fetchFn pid = Except.error e →
      (process_update cfgChat eff snap st { message := some m }).ledger_file =
        st.ledger_file ∧
      (process_update cfgChat eff snap st { message := some m }).fs = st.fs ∧
      (process_update cfgChat eff snap st { message := some m }).sent =
        st.sent ++ [(toString m.chat.id, processing_msg pid),
                    (toString m.chat.id, error_msg pid e)] ∧
      occursIn e.toList (error_msg pid e).toList = true) ∧
    (∀ paper : Paper, eff.fetchFn pid = Except.ok paper →
      eff.genFn (summary_prompt paper) = Except.error e →
      (process_update cfgChat eff snap st { message := some m }).ledger_file =
        st.ledger_file ∧
      (process_update cfgChat eff snap st { message := some m }).fs = st.fs ∧
      (process_update cfgChat eff snap st { message := some m }).sent =
        st.sent ++ [(toString m.chat.id, processing_msg pid),
                    (toString m.chat.id, error_msg pid e)] ∧
      occursIn e.toList (error_msg pid e).toList = true) := by
  subst hc
  constructor
  · intro hf
    refine ⟨?_, ?_, ?_, error_msg_contains_reason pid e⟩ <;>
      simp [process_update, hp, hd, hf]
  · intro paper hf hg
    refine ⟨?_, ?_, ?_, error_msg_contains_reason pid e⟩ <;>
      simp [process_update, generate_summary, hp, hd, hf, hg]

/-- Witness for claim C1 at a concrete update whose fetch fails. -/
theorem failure_notifies_and_leaves_ledger_witness :
    (process_update (some "7") effErr [] init1 { message := some msg0 }).ledger_file =
      init1.ledger_file ∧
    (process_update (some "7") effErr [] init1 { message := some msg0 }).fs = init1.fs ∧
    (process_update (some "7") effErr [] init1 { message := some msg0 }).sent =
      init1.sent ++ [(toString msg0.chat.id, processing_msg "2301.01234"),
                     (toString msg0.chat.id, error_msg "2301.01234" "service down")] ∧
    occursIn "service down".toList
      (error_msg "2301.01234" "service down").toList = true :=
  (failure_notifies_and_leaves_ledger (some "7") effErr [] init1 msg0
    "2301.01234" "service down" (by decide) (by decide) (by decide)).1 rfl

theorem process_update_skipped_eq (cfgChat : Option String) (eff : Effects)
    (snap : List String) (st : RunState) (u : Update)
    (h : skipped cfgChat snap u = true) :
    process_update cfgChat eff snap st u = st := by
  unfold skipped at h
  unfold process_update
  cases hu : u.message with
  | none => simp only [hu]
  | some m =>
    simp only [hu] at h
    simp only [hu]
    by_cases hc : some (toString m.chat.id) ≠ cfgChat
    · rw [if_pos hc]
    · rw [if_neg hc] at h
      rw [if_neg hc]
      cases he : extract_arxiv_id (m.text.getD "") with
      | none => simp only [he]
      | some pid =>
        simp only [he, decide_eq_true_eq] at h
        simp only [he]
        rw [if_pos h]

theorem foldl_skipped (cfgChat : Option String) (eff : Effects) (snap : List String)
    (updates : List Update) :
    ∀ st : RunState, (∀ u ∈ updates, skipped cfgChat snap u = true) →
      updates.foldl (process_update cfgChat eff snap) st = st := by
  induction updates with
  | nil => intro st _; rfl
  | cons u us ih =>
    intro st h
    rw [List.foldl_cons, process_update_skipped_eq cfgChat eff snap st u (h u (by simp))]
    exact ih st (fun v hv => h v (by simp [hv]))

theorem process_update_fetch_calls (cfgChat : Option String) (eff : Effects)
    (snap : List String) (st : RunState) (u : Update) :
    ∃ l, (process_update cfgChat eff snap st u).fetch_calls = st.fetch_calls ++ l ∧
      ∀ p ∈ l, p ∉ snap := by
  unfold process_update
  cases hu : u.message with
  | none => exact ⟨[], by simp [hu], by simp⟩
  | some m =>
    by_cases hc : some (toString m.chat.id) ≠ cfgChat
    · exact ⟨[], by simp [hu, hc], by simp⟩
    · cases he : extract_arxiv_id (m.text.getD "") with
      | none => exact ⟨[], by simp [hu, hc, he], by simp⟩
      | some pid =>
        by_cases hm : pid ∈ snap
        · exact ⟨[], by simp [hu, hc, he, hm], by simp⟩
        · cases hf : eff.fetchFn pid with
          | error e =>
            exact ⟨[pid], by simp [hu, hc, he, hm, hf], by simpa using hm⟩
          | ok paper =>
            cases hg : generate_summary eff.genFn paper with
            | error e =>
              exact ⟨[pid], by simp [hu, hc, he, hm, hf, hg], by simpa using hm⟩
            | ok s2 =>
              exact ⟨[pid], by simp [hu, hc, he, hm, hf, hg], by simpa using hm⟩

theorem foldl_fetch_calls_mem (cfgChat : Option String) (eff : Effects)
    (snap : List String) (updates : List Update) :
    ∀ (st : RunState) (pid : String),
      pid ∈ (updates.foldl (process_update cfgChat eff snap) st).fetch_calls →
      pid ∈ st.fetch_calls ∨ pid ∉ snap := by
  induction updates with
  | nil => intro st pid h; exact Or.inl h
  | cons u us ih =>
    intro st pid h
    rcases ih _ pid h with h1 | h1
    · obtain ⟨l, hl, hmem⟩ := process_update_fetch_calls cfgChat eff snap st u
      rw [hl] at h1
      rcases List.mem_append.mp h1 with h2 | h2
      · exact Or.inl h2
      · exact Or.inr (hmem _ h2)
    · exact Or.inr h1

/-- Claim C6: a run in which every update is skipped (no message, chat
mismatch, no extracted identifier, or identifier already in the ledger)
returns the state unchanged: no file write, no ledger write, no
notification, no fetch; and in any run an identifier already in the
ledger at the start is never fetched. -/
theorem skipped_run_is_noop (cfgChat : Option String) (eff : Effects)
    (updates : List Update) (init : RunState) :
    ((∀ u ∈ updates, skipped cfgChat (load_processed_papers init.ledger_file) u = true) →
      process_new_papers cfgChat eff updates init = init) ∧
    (∀ pid, pid ∈ load_processed_papers init.ledger_file →
      pid ∈ (process_new_papers cfgChat eff updates init).fetch_calls →
      pid ∈ init.fetch_calls) := by
  constructor
  · intro h
    exact foldl_skipped cfgChat eff (load_processed_papers init.ledger_file) updates init h
  · intro pid hledger hmem
    rcases foldl_fetch_calls_mem cfgChat eff (load_processed_papers init.ledger_file)
      updates init pid hmem with h | h
    · exact h
    · exact absurd hledger h

/-- Witness for claim C6: a run over an empty-message update, an
already-recorded identifier from the configured chat, and a message from
another chat is a no-op, and the recorded identifier picks up no new
fetch call. -/
theorem skipped_run_is_noop_witness :
    process_new_papers (some "1") effErr updates0 init0 = init0 ∧
    "2301.01234" ∈ init0.fetch_calls :=
  ⟨(skipped_run_is_noop (some "1") effErr updates0 init0).1 (by decide),
   (skipped_run_is_noop (some "1") effErr updates0 init0).2 "2301.01234"
     (by decide) (by decide)⟩

end ArxivProc
